import Mathlib

/-!
Verification of the multi-tenant SQL execution gateway described in the
repository's documentation, against a shallow embedding of its components.

The repository ships the onboarding frontend (TypeScript), the admin database
DDL (`onboarding_DB/backend/database_schema.sql`) and the server documentation;
the gateway's own Python modules (Statement Guard, Connection Pool Manager,
Correction Loop Controller, Query Executor, Audit Sink) are not present in the
repository, so those components are modelled from the specification's words and
marked as such on each definition.  The admin-database table and the onboarding
form's table-toggle update are embedded directly from the source files.
-/

namespace SqlGateway

/-! ## Statement Guard -/

/-- Modelled from the spec: the result type of the Statement Guard's
`Validate(statement) → Accepted | Rejected(reason)` (the guard's source module
is not present in the repository).  `accepted` carries the possibly
limit-amended statement. -/
inductive GuardResult where
  | accepted (stmt : String)
  | rejected (reason : String)
deriving DecidableEq, Repr

/-- The characters after the first statement terminator of the text, if any. -/
def afterTerminator : List Char → Option (List Char)
  | [] => none
  | c :: cs => if c = ';' then some cs else afterTerminator cs

/-- Modelled from the spec, guard rule 1: the text contains a statement
terminator followed by further non-whitespace content (stacked statements). -/
def hasStacked (s : String) : Bool :=
  match afterTerminator s.toList with
  | none => false
  | some rest => rest.any (fun c => !c.isWhitespace)

/-- Drop the body of a line comment, up to and including the newline. -/
def dropLineComment : List Char → List Char
  | [] => []
  | c :: cs => if c = '\n' then cs else dropLineComment cs

/-- Drop the body of a block comment, up to and including the closing marker. -/
def dropBlockComment : List Char → List Char
  | [] => []
  | c :: cs =>
    if c = '*' then
      match cs with
      | [] => []
      | d :: ds => if d = '/' then ds else dropBlockComment cs
    else dropBlockComment cs

/-- Strip leading whitespace and SQL comments (line and block comments); the
fuel argument bounds the number of skipped lexemes and is at least the text
length at every call, so it never runs out before the text does. -/
def stripLeadingFuel : Nat → List Char → List Char
  | 0, cs => cs
  | _ + 1, [] => []
  | fuel + 1, c :: rest =>
    if c.isWhitespace then stripLeadingFuel fuel rest
    else if c = '-' then
      match rest with
      | [] => [c]
      | d :: ds => if d = '-' then stripLeadingFuel fuel (dropLineComment ds) else c :: rest
    else if c = '/' then
      match rest with
      | [] => [c]
      | d :: ds => if d = '*' then stripLeadingFuel fuel (dropBlockComment ds) else c :: rest
    else c :: rest

/-- Modelled from the spec: strip leading whitespace and comments from a
statement before inspecting its first keyword. -/
def stripLeading (cs : List Char) : List Char :=
  stripLeadingFuel cs.length cs

/-- A word character: letters, digits or underscore (an identifier character,
used for word-boundary keyword matching). -/
def wordChar (c : Char) : Bool := c.isAlphanum || c = '_'

/-- The lowercased string spelled by a character list. -/
def lowerStr (cs : List Char) : String := String.mk (cs.map Char.toLower)

/-- Modelled from the spec, guard rule 2: after stripping leading
whitespace/comments, the statement must begin with SELECT or WITH
(case-insensitive). -/
def startsWithRead (s : String) : Bool :=
  let kw := lowerStr ((stripLeading s.toList).takeWhile wordChar)
  kw == "select" || kw == "with"

/-- Split a character list into its maximal runs of word characters; `acc`
accumulates the current run in reverse. -/
def tokensGo : List Char → List Char → List String
  | [], acc => if acc.isEmpty then [] else [String.mk acc.reverse]
  | c :: cs, acc =>
    if wordChar c then tokensGo cs (c :: acc)
    else if acc.isEmpty then tokensGo cs []
    else String.mk acc.reverse :: tokensGo cs []

/-- The standalone words of a statement (maximal runs of word characters), the
word-boundary tokenisation used by the keyword blocklist. -/
def tokens (s : String) : List String := tokensGo s.toList []

/-- The lowercased form of a token. -/
def lowerToken (t : String) : String := lowerStr t.toList

/-- Modelled from the spec: the blocked-keyword list of guard rule 3. -/
def blockedKeywords : List String :=
  ["insert", "update", "delete", "drop", "alter", "truncate",
   "grant", "revoke", "create", "exec"]

/-- Modelled from the spec, guard rule 3: the statement contains a blocked
keyword as a standalone word (word-boundary match, case-insensitive). -/
def hasBlockedKeyword (s : String) : Bool :=
  (tokens s).any (fun t => blockedKeywords.contains (lowerToken t))

/-- Modelled from the spec, guard rule 4 test: the statement already has a
row-limiting clause (a standalone LIMIT keyword, case-insensitive). -/
def hasLimitClause (s : String) : Bool :=
  (tokens s).any (fun t => lowerToken t == "limit")

/-- Rejection reason of guard rule 1. -/
def reasonMultiple : String := "multiple statements"

/-- Rejection reason of guard rule 2. -/
def reasonNotRead : String := "not a read query"

/-- Rejection reason of guard rule 3. -/
def reasonBlocked : String := "dangerous keyword"

/-- The default row cap appended by guard rule 4. -/
def appendLimit (maxRows : Nat) (s : String) : String :=
  s ++ " LIMIT " ++ toString maxRows

/-- Modelled from the spec: the Statement Guard's `Validate`, applying in
order: the single-statement rule, the SELECT/WITH first-keyword rule, the
blocked-keyword rule, and default row-cap injection (`maxRows` configurable,
default 1000). -/
def validate (maxRows : Nat) (s : String) : GuardResult :=
  if hasStacked s then .rejected reasonMultiple
  else if !startsWithRead s then .rejected reasonNotRead
  else if hasBlockedKeyword s then .rejected reasonBlocked
  else if hasLimitClause s then .accepted s
  else .accepted (appendLimit maxRows s)

/-! ## Query Executor outcomes and the Correction Loop Controller -/

/-- Modelled from the spec: the Query Executor's outcome categories.  The
category the spec calls SyntaxOrSemanticError (the database rejected the
statement itself) is named `semanticError` here and carries the error text fed
back into the correction loop. -/
inductive Outcome where
  | success
  | connectionError
  | timeout
  | semanticError (msg : String)
deriving DecidableEq, Repr

/-- Modelled from the spec: the terminal status of a correction-loop session. -/
inductive FinalStatus where
  | succeeded
  | exhausted
  | rejectedByGuard (reason : String)
  | connectionFailed
  | timedOut
deriving DecidableEq, Repr

/-- Modelled from the spec: the observable outcome of a correction-loop
session: terminal status, the attempt number at which it ended (0 for a guard
rejection, which records no execution attempt), the number of revised
statements requested from the SQL-generation collaborator, and the number of
Query Executor invocations (each consumes one database connection checkout). -/
structure LoopResult where
  status : FinalStatus
  attempts : Nat
  revisions : Nat
  checkouts : Nat
deriving DecidableEq, Repr

/-- Modelled from the spec: the Correction Loop Controller from state
`Guarding` at attempt number `counter`.  `g` is the Statement Guard, `ex` the
Query Executor (indexed by attempt number), `revise` the SQL-generation
collaborator (statement and error text to revised statement).  `remaining` is
the number of retries still allowed, that is `maxAttempts - counter`, so the
spec's "attempt counter < max attempts" is exactly `remaining > 0`; a
semantic error with no retries left is terminal `exhausted`. -/
def loopFrom (g : String → GuardResult) (ex : Nat → String → Outcome)
    (revise : String → String → String) (remaining : Nat) (stmt : String)
    (counter revs chks : Nat) : LoopResult :=
  match g stmt with
    | .rejected r => ⟨.rejectedByGuard r, 0, revs, chks⟩
    | .accepted s =>
      match ex counter s with
      | .success => ⟨.succeeded, counter, revs, chks + 1⟩
      | .connectionError => ⟨.connectionFailed, counter, revs, chks + 1⟩
      | .timeout => ⟨.timedOut, counter, revs, chks + 1⟩
      | .semanticError msg =>
        match remaining with
        | 0 => ⟨.exhausted, counter, revs, chks + 1⟩
        | r + 1 => loopFrom g ex revise r (revise s msg) (counter + 1) (revs + 1) (chks + 1)

/-- Modelled from the spec: run a full correction-loop session — initial state
`Guarding`, attempt counter 1, retry budget `maxRetries` attempts in total
(default 5). -/
def runSession (g : String → GuardResult) (ex : Nat → String → Outcome)
    (revise : String → String → String) (maxRetries : Nat) (stmt : String) :
    LoopResult :=
  loopFrom g ex revise (maxRetries - 1) stmt 1 0 0

/-! ## Audit Sink -/

/-- Modelled from the spec: the caller-facing response assembled from a
finished session. -/
structure Response where
  success : Bool
  finalStatus : FinalStatus
  lastStatement : String
deriving DecidableEq, Repr

/-- Modelled from the spec: a CorrectionSession — tenant key, original
request, last attempted statement and the loop's result. -/
structure CorrectionSession where
  tenantKey : String
  originalRequest : String
  lastStatement : String
  result : LoopResult
deriving DecidableEq, Repr

/-- Modelled from the spec: build the caller's response from a session. -/
def respond (sess : CorrectionSession) : Response :=
  { success := decide (sess.result.status = .succeeded)
  , finalStatus := sess.result.status
  , lastStatement := sess.lastStatement }

/-- Modelled from the spec: the terminal flush of a session to the Audit Sink
(`Record` is best-effort): a write failure is logged and swallowed, and the
caller's response is built from the session either way.  Returns the response
together with the log lines produced. -/
def finalizeSession (record : CorrectionSession → Except String Unit)
    (sess : CorrectionSession) : Response × List String :=
  match record sess with
  | .ok _ => (respond sess, [])
  | .error e => (respond sess, ["audit write failed: " ++ e])

/-! ## Connection Pool Manager -/

/-- Modelled from the spec: the Pool Manager's registry, an explicit map from
tenant key to live pool object (identified by a creation serial number). -/
structure PoolRegistry where
  pools : List (String × Nat)
  nextId : Nat
deriving DecidableEq, Repr

/-- Modelled from the spec: `Acquire(tenantKey)` — returns the tenant's
existing pool, or lazily creates one for an unseen key.  Per the spec, pool
creation is serialized per tenant key by an initialization guard, so the
lookup-or-create is a single atomic step of the registry. -/
def acquire (st : PoolRegistry) (key : String) : PoolRegistry × Nat :=
  match st.pools.lookup key with
  | some pid => (st, pid)
  | none => (⟨(key, st.nextId) :: st.pools, st.nextId + 1⟩, st.nextId)

/-- Modelled from the spec: idle-timeout teardown of one tenant's pool. -/
def evictPool (st : PoolRegistry) (key : String) : PoolRegistry :=
  ⟨st.pools.filter (fun p => p.1 != key), st.nextId⟩

/-- Modelled from the spec: the registry-mutating operations, one per atomic
step of an interleaved execution. -/
inductive PoolStep where
  | acq (key : String)
  | idle (key : String)
deriving DecidableEq, Repr

/-- Run a sequence of interleaved registry steps. -/
def runSteps (st : PoolRegistry) : List PoolStep → PoolRegistry
  | [] => st
  | PoolStep.acq k :: rest => runSteps (acquire st k).1 rest
  | PoolStep.idle k :: rest => runSteps (evictPool st k) rest

/-- The number of pools created for tenant `k` along a run: an `acq` step
creates one exactly when the key is unseen at that instant. -/
def creationsFor (k : String) (st : PoolRegistry) : List PoolStep → Nat
  | [] => 0
  | PoolStep.acq j :: rest =>
    (if j = k ∧ st.pools.lookup j = none then 1 else 0) +
      creationsFor k (acquire st j).1 rest
  | PoolStep.idle j :: rest => creationsFor k (evictPool st j) rest

/-- The registry invariant: at most one live pool object per tenant key. -/
def distinctKeys (st : PoolRegistry) : Prop :=
  (st.pools.map Prod.fst).Nodup

/-! ## Admin database: the db_connection_infos table
(embedded from onboarding_DB/backend/database_schema.sql) -/

/-- A row of `db_connection_infos`.  NOT NULL columns are plain fields;
nullable columns are `Option`; SQL timestamps are abstracted to `Nat`. -/
structure DbConnectionInfo where
  id : Nat
  user_email : String
  db_type : String
  host : String
  port : Int
  db_user : String
  db_password : String
  db_name : String
  catalog_markdown : Option String
  created_at : Option Nat
  updated_at : Option Nat
  last_query_at : Option Nat
  status : Option String
deriving DecidableEq, Repr

/-- The admin database table with its SERIAL id counter. -/
structure AdminDb where
  rows : List DbConnectionInfo
  nextId : Nat
deriving DecidableEq, Repr

/-- The constraints the DDL declares on the table: primary-key ids are
distinct, `user_email` is UNIQUE, and every id is below the serial counter. -/
def validAdmin (db : AdminDb) : Prop :=
  (db.rows.map DbConnectionInfo.id).Nodup ∧
  (db.rows.map DbConnectionInfo.user_email).Nodup ∧
  ∀ r ∈ db.rows, r.id < db.nextId

/-- Schema default for `db_type`. -/
def defaultDbType : String := "postgres"

/-- Schema default for `port`. -/
def defaultPort : Int := 5432

/-- Schema default for `status`. -/
def statusActive : String := "active"

/-- The other status value the spec names for a tenant. -/
def statusSuspended : String := "suspended"

/-- Values supplied by an INSERT into `db_connection_infos`; a `none` in an
optional field means the column is omitted and takes its schema default. -/
structure InsertValues where
  user_email : String
  host : String
  db_user : String
  db_name : String
  db_password : String
  db_type : Option String
  port : Option Int
  catalog_markdown : Option String
  status : Option String
deriving DecidableEq, Repr

/-- The row an INSERT stores: SERIAL id from the counter, declared defaults
for omitted columns (`db_type` 'postgres', `port` 5432, `status` 'active',
`created_at`/`updated_at` NOW, `last_query_at` NULL). -/
def newRow (db : AdminDb) (v : InsertValues) : DbConnectionInfo :=
  { id := db.nextId
  , user_email := v.user_email
  , db_type := Option.getD v.db_type defaultDbType
  , host := v.host
  , port := Option.getD v.port defaultPort
  , db_user := v.db_user
  , db_password := v.db_password
  , db_name := v.db_name
  , catalog_markdown := v.catalog_markdown
  , created_at := some 0
  , updated_at := some 0
  , last_query_at := none
  , status := some (Option.getD v.status statusActive) }

/-- Insert into `db_connection_infos`: fails (UNIQUE violation) when the
tenant key is already present, otherwise stores `newRow`.  The DDL places no
CHECK constraint on `status`, so any supplied text is stored as is. -/
def insertAdmin (db : AdminDb) (v : InsertValues) : Option AdminDb :=
  if v.user_email ∈ db.rows.map DbConnectionInfo.user_email then none
  else some ⟨newRow db v :: db.rows, db.nextId + 1⟩

/-- The status discipline the spec asserts for tenant records: every record's
status is 'active' or 'suspended'. -/
def statusesWellFormed (db : AdminDb) : Prop :=
  ∀ r ∈ db.rows, r.status = some statusActive ∨ r.status = some statusSuspended

/-! ## Onboarding form: table selection toggle
(embedded from the onboarding page's handleTableToggle) -/

/-- Embedded from the source: `handleTableToggle` updates the selected-tables
list — if the table is present it is filtered out, otherwise it is appended. -/
def handleTableToggle (prev : List String) (table : String) : List String :=
  if table ∈ prev then prev.filter (fun t => t != table) else prev ++ [table]

/-! ## Theorems -/

/-- C10: on a duplicate-free selection, `handleTableToggle` flips exactly the
toggled table's membership, leaves every other table's membership unchanged,
and applying it twice with the same table restores the original membership
set. -/
theorem handleTableToggle_spec (prev : List String) (table : String)
    (_hnd : prev.Nodup) :
    (table ∈ handleTableToggle prev table ↔ table ∉ prev) ∧
    (∀ s, s ≠ table → (s ∈ handleTableToggle prev table ↔ s ∈ prev)) ∧
    (∀ s, s ∈ handleTableToggle (handleTableToggle prev table) table ↔ s ∈ prev) := by
  by_cases h : table ∈ prev
  · refine ⟨?_, ?_, ?_⟩
    · simp [handleTableToggle, h, List.mem_filter]
    · intro s hs
      simp [handleTableToggle, h, List.mem_filter, hs]
    · intro s
      by_cases hst : s = table
      · subst hst
        simp [handleTableToggle, h, List.mem_filter]
      · simp [handleTableToggle, h, List.mem_filter, hst]
  · refine ⟨?_, ?_, ?_⟩
    · simp [handleTableToggle, h]
    · intro s hs
      simp [handleTableToggle, h, hs]
    · intro s
      by_cases hst : s = table
      · subst hst
        simp [handleTableToggle, h, List.mem_filter]
      · simp [handleTableToggle, h, List.mem_filter, hst]

/-- The selection used in the C10 witness. -/
def exTables : List String := ["users", "orders"]

/-- The table toggled in the C10 witness. -/
def exUsersTable : String := "users"

/-- C10 witness: toggling a selected table removes it from the selection. -/
theorem handleTableToggle_spec_witness :
    exUsersTable ∈ handleTableToggle exTables exUsersTable ↔ exUsersTable ∉ exTables :=
  (handleTableToggle_spec exTables exUsersTable (by decide)).1

/-- C2: a statement with a terminator followed by further non-whitespace
content is rejected by the guard with reason "multiple statements"; the
session ends rejected-by-guard with zero Query Executor invocations and
zero connection checkouts. -/
theorem stacked_statement_never_executes (ex : Nat → String → Outcome)
    (revise : String → String → String) (maxRetries maxRows : Nat) (s : String)
    (h : hasStacked s = true) :
    runSession (validate maxRows) ex revise maxRetries s =
      ⟨FinalStatus.rejectedByGuard reasonMultiple, 0, 0, 0⟩ := by
  unfold runSession
  simp [loopFrom, validate, h]

/-- The stacked statement used in the C2 witness. -/
def exStacked : String := "SELECT a FROM t; SELECT b FROM t"

/-- C2 witness: the stacked sample statement is rejected by the guard and the
session consumes no connection. -/
theorem stacked_statement_never_executes_witness :
    runSession (validate 1000) (fun _ _ => Outcome.success) (fun s _ => s) 5 exStacked =
      ⟨FinalStatus.rejectedByGuard reasonMultiple, 0, 0, 0⟩ :=
  stacked_statement_never_executes _ _ 5 1000 exStacked (by decide)

/-- C3: a statement whose first keyword (after stripping leading whitespace and
comments, case-insensitively) is not SELECT or WITH is rejected by the guard;
and a statement that does begin with SELECT or WITH is never rejected by the
first-keyword rule (its "not a read query" reason never appears). -/
theorem first_keyword_rule (maxRows : Nat) (s : String) :
    (startsWithRead s = false →
      validate maxRows s = GuardResult.rejected reasonMultiple ∨
      validate maxRows s = GuardResult.rejected reasonNotRead) ∧
    (startsWithRead s = true →
      validate maxRows s ≠ GuardResult.rejected reasonNotRead) := by
  constructor
  · intro h
    by_cases hs : hasStacked s
    · exact Or.inl (by simp [validate, hs])
    · exact Or.inr (by simp [validate, hs, h])
  · intro h hcon
    unfold validate at hcon
    split at hcon
    · exact absurd (GuardResult.rejected.inj hcon) (by decide)
    · split at hcon
      · next hns =>
        rw [h] at hns
        simp at hns
      · split at hcon
        · exact absurd (GuardResult.rejected.inj hcon) (by decide)
        · split at hcon <;> cases hcon

/-- A non-read statement for the C3 witness. -/
def exShow : String := "SHOW TABLES"

/-- A read statement with odd case and a leading comment for the C3 witness. -/
def exCasedSelect : String := "  /* hint */ sElEcT 1"

/-- C3 witness: the non-read sample is rejected as "not a read query"; the
cased, comment-prefixed SELECT sample never draws that rejection. -/
theorem first_keyword_rule_witness :
    (validate 1000 exShow = GuardResult.rejected reasonMultiple ∨
      validate 1000 exShow = GuardResult.rejected reasonNotRead) ∧
    validate 1000 exCasedSelect ≠ GuardResult.rejected reasonNotRead :=
  ⟨(first_keyword_rule 1000 exShow).1 (by decide),
   (first_keyword_rule 1000 exCasedSelect).2 (by decide)⟩

/-- C5: a statement passing the first three guard rules is never rejected for
lacking a row cap: if it has no row-limiting clause the guard accepts it with
the default cap appended, and if it already has one the guard returns it
unmodified. -/
theorem limit_injection (maxRows : Nat) (s : String)
    (h1 : hasStacked s = false) (h2 : startsWithRead s = true)
    (h3 : hasBlockedKeyword s = false) :
    (hasLimitClause s = false →
      validate maxRows s = GuardResult.accepted (appendLimit maxRows s)) ∧
    (hasLimitClause s = true → validate maxRows s = GuardResult.accepted s) := by
  constructor <;> intro h <;> simp [validate, h1, h2, h3, h]

/-- An uncapped SELECT for the C5 witness. -/
def exNoLimit : String := "SELECT * FROM users"

/-- An already-capped SELECT for the C5 witness. -/
def exWithLimit : String := "SELECT * FROM users LIMIT 10"

/-- C5 witness: the uncapped sample comes back with " LIMIT 1000" appended and
the capped sample comes back unmodified. -/
theorem limit_injection_witness :
    validate 1000 exNoLimit = GuardResult.accepted (appendLimit 1000 exNoLimit) ∧
    validate 1000 exWithLimit = GuardResult.accepted exWithLimit :=
  ⟨(limit_injection 1000 exNoLimit (by decide) (by decide) (by decide)).1 (by decide),
   (limit_injection 1000 exWithLimit (by decide) (by decide) (by decide)).2 (by decide)⟩

/-- One step of the loop: a guard rejection is terminal, records no attempt
and consumes nothing. -/
theorem loopFrom_rejected (g : String → GuardResult) (ex : Nat → String → Outcome)
    (revise : String → String → String) (remaining : Nat) (stmt r : String)
    (counter revs chks : Nat) (hg : g stmt = GuardResult.rejected r) :
    loopFrom g ex revise remaining stmt counter revs chks =
      ⟨FinalStatus.rejectedByGuard r, 0, revs, chks⟩ := by
  simp only [loopFrom, hg]

/-- One step of the loop: a successful execution is terminal at the current
attempt. -/
theorem loopFrom_success (g : String → GuardResult) (ex : Nat → String → Outcome)
    (revise : String → String → String) (remaining : Nat) (stmt s : String)
    (counter revs chks : Nat) (hg : g stmt = GuardResult.accepted s)
    (hex : ex counter s = Outcome.success) :
    loopFrom g ex revise remaining stmt counter revs chks =
      ⟨FinalStatus.succeeded, counter, revs, chks + 1⟩ := by
  simp only [loopFrom, hg, hex]

/-- One step of the loop: a connection error is terminal at the current
attempt. -/
theorem loopFrom_connection (g : String → GuardResult) (ex : Nat → String → Outcome)
    (revise : String → String → String) (remaining : Nat) (stmt s : String)
    (counter revs chks : Nat) (hg : g stmt = GuardResult.accepted s)
    (hex : ex counter s = Outcome.connectionError) :
    loopFrom g ex revise remaining stmt counter revs chks =
      ⟨FinalStatus.connectionFailed, counter, revs, chks + 1⟩ := by
  simp only [loopFrom, hg, hex]

/-- One step of the loop: a timeout is terminal at the current attempt. -/
theorem loopFrom_timeout (g : String → GuardResult) (ex : Nat → String → Outcome)
    (revise : String → String → String) (remaining : Nat) (stmt s : String)
    (counter revs chks : Nat) (hg : g stmt = GuardResult.accepted s)
    (hex : ex counter s = Outcome.timeout) :
    loopFrom g ex revise remaining stmt counter revs chks =
      ⟨FinalStatus.timedOut, counter, revs, chks + 1⟩ := by
  simp only [loopFrom, hg, hex]

/-- One step of the loop: a semantic error with no retries left is terminal
`exhausted`. -/
theorem loopFrom_semantic_last (g : String → GuardResult) (ex : Nat → String → Outcome)
    (revise : String → String → String) (stmt s m : String)
    (counter revs chks : Nat) (hg : g stmt = GuardResult.accepted s)
    (hex : ex counter s = Outcome.semanticError m) :
    loopFrom g ex revise 0 stmt counter revs chks =
      ⟨FinalStatus.exhausted, counter, revs, chks + 1⟩ := by
  simp only [loopFrom, hg, hex]

/-- One step of the loop: a semantic error with retries left revises the
statement and re-enters Guarding at the next attempt. -/
theorem loopFrom_semantic_retry (g : String → GuardResult) (ex : Nat → String → Outcome)
    (revise : String → String → String) (r : Nat) (stmt s m : String)
    (counter revs chks : Nat) (hg : g stmt = GuardResult.accepted s)
    (hex : ex counter s = Outcome.semanticError m) :
    loopFrom g ex revise (r + 1) stmt counter revs chks =
      loopFrom g ex revise r (revise s m) (counter + 1) (revs + 1) (chks + 1) := by
  rw [loopFrom.eq_def, hg]
  show (match ex counter s with
    | Outcome.success => LoopResult.mk FinalStatus.succeeded counter revs (chks + 1)
    | Outcome.connectionError => LoopResult.mk FinalStatus.connectionFailed counter revs (chks + 1)
    | Outcome.timeout => LoopResult.mk FinalStatus.timedOut counter revs (chks + 1)
    | Outcome.semanticError msg =>
      match r + 1 with
      | 0 => LoopResult.mk FinalStatus.exhausted counter revs (chks + 1)
      | Nat.succ q => loopFrom g ex revise q (revise s msg) (counter + 1) (revs + 1) (chks + 1)) = _
  rw [hex]

/-- When the guard accepts every statement and every execution fails with a
semantic error, the loop from any state runs down its whole remaining retry
budget and ends exhausted, with one revision and one checkout per extra
attempt. -/
theorem loopFrom_all_semantic (g : String → GuardResult)
    (ex : Nat → String → Outcome) (revise : String → String → String)
    (hg : ∀ s, ∃ s', g s = GuardResult.accepted s')
    (hex : ∀ n s, ∃ m, ex n s = Outcome.semanticError m) :
    ∀ (remaining : Nat) (stmt : String) (counter revs chks : Nat),
      loopFrom g ex revise remaining stmt counter revs chks =
        ⟨FinalStatus.exhausted, counter + remaining, revs + remaining,
          chks + remaining + 1⟩ := by
  intro remaining
  induction remaining with
  | zero =>
    intro stmt counter revs chks
    obtain ⟨s', hs'⟩ := hg stmt
    obtain ⟨m, hm⟩ := hex counter s'
    rw [loopFrom_semantic_last g ex revise stmt s' m counter revs chks hs' hm]
    simp
  | succ r ih =>
    intro stmt counter revs chks
    obtain ⟨s', hs'⟩ := hg stmt
    obtain ⟨m, hm⟩ := hex counter s'
    rw [loopFrom_semantic_retry g ex revise r stmt s' m counter revs chks hs' hm, ih]
    congr 1 <;> omega

/-- C1: a session whose statement fails with a syntax/semantic error on every
attempt terminates with status Exhausted after exactly `maxRetries` attempts
(so the attempt count never exceeds the configured maximum). -/
theorem correction_loop_exhausts_at_max (g : String → GuardResult)
    (ex : Nat → String → Outcome) (revise : String → String → String)
    (maxRetries : Nat) (stmt : String) (hmax : 1 ≤ maxRetries)
    (hg : ∀ s, ∃ s', g s = GuardResult.accepted s')
    (hex : ∀ n s, ∃ m, ex n s = Outcome.semanticError m) :
    (runSession g ex revise maxRetries stmt).status = FinalStatus.exhausted ∧
    (runSession g ex revise maxRetries stmt).attempts = maxRetries := by
  unfold runSession
  rw [loopFrom_all_semantic g ex revise hg hex]
  refine ⟨rfl, ?_⟩
  show 1 + (maxRetries - 1) = maxRetries
  omega

/-- The statement starting the C1 witness session. -/
def exLoopStmt : String := "SELECT x FROM t"

/-- The error text produced by the C1 witness executor. -/
def exErrText : String := "column x does not exist"

/-- C1 witness: with an accept-all guard and an always-failing executor, the
default budget of 5 gives an Exhausted session of exactly 5 attempts. -/
theorem correction_loop_exhausts_at_max_witness :
    (runSession GuardResult.accepted (fun _ _ => Outcome.semanticError exErrText)
        (fun s _ => s) 5 exLoopStmt).status = FinalStatus.exhausted ∧
    (runSession GuardResult.accepted (fun _ _ => Outcome.semanticError exErrText)
        (fun s _ => s) 5 exLoopStmt).attempts = 5 :=
  correction_loop_exhausts_at_max GuardResult.accepted
    (fun _ _ => Outcome.semanticError exErrText) (fun s _ => s) 5 exLoopStmt
    (by omega) (fun s => ⟨s, rfl⟩) (fun _ _ => ⟨exErrText, rfl⟩)

/-- C6: whenever the executor reports a connection error or a timeout at the
current attempt, the loop is terminal right there: the session ends at that
attempt number, the revision count is unchanged (no revised statement is
requested from the SQL-generation collaborator), and the error category is
surfaced directly as the final status. -/
theorem connection_error_terminal (g : String → GuardResult)
    (ex : Nat → String → Outcome) (revise : String → String → String)
    (remaining : Nat) (stmt s : String) (counter revs chks : Nat)
    (hg : g stmt = GuardResult.accepted s) :
    (ex counter s = Outcome.connectionError →
      loopFrom g ex revise remaining stmt counter revs chks =
        ⟨FinalStatus.connectionFailed, counter, revs, chks + 1⟩) ∧
    (ex counter s = Outcome.timeout →
      loopFrom g ex revise remaining stmt counter revs chks =
        ⟨FinalStatus.timedOut, counter, revs, chks + 1⟩) := by
  exact ⟨fun h => loopFrom_connection g ex revise remaining stmt s counter revs chks hg h,
         fun h => loopFrom_timeout g ex revise remaining stmt s counter revs chks hg h⟩

/-- The statement starting the C6 witness session. -/
def exConnStmt : String := "SELECT y FROM t"

/-- C6 witness: a session whose first attempt hits a connection error ends
immediately at attempt 1 with zero revisions. -/
theorem connection_error_terminal_witness :
    runSession GuardResult.accepted (fun _ _ => Outcome.connectionError)
      (fun s _ => s) 5 exConnStmt =
      ⟨FinalStatus.connectionFailed, 1, 0, 1⟩ :=
  (connection_error_terminal GuardResult.accepted (fun _ _ => Outcome.connectionError)
    (fun s _ => s) 4 exConnStmt exConnStmt 1 0 0 rfl).1 rfl

/-- C8: the audit write is best-effort — the caller's response is the same
whatever the Audit Sink's record operation returns, and a succeeded session
still yields a successful response when the audit write fails. -/
theorem audit_failure_swallowed
    (record rec2 : CorrectionSession → Except String Unit)
    (sess : CorrectionSession) :
    (finalizeSession record sess).1 = (finalizeSession rec2 sess).1 ∧
    (sess.result.status = FinalStatus.succeeded →
      ((finalizeSession record sess).1).success = true) := by
  constructor
  · unfold finalizeSession
    cases record sess <;> cases rec2 sess <;> rfl
  · intro h
    unfold finalizeSession
    cases record sess <;> simp [respond, h]

/-- The error text of the failing audit sink in the C8 witness. -/
def exAuditErr : String := "disk full"

/-- An audit sink whose write always fails (C8 witness). -/
def auditFailing : CorrectionSession → Except String Unit :=
  fun _ => Except.error exAuditErr

/-- An audit sink whose write always succeeds (C8 witness). -/
def auditSucceeding : CorrectionSession → Except String Unit :=
  fun _ => Except.ok ()

/-- A succeeded session flushed to the audit sink in the C8 witness. -/
def exSession : CorrectionSession :=
  ⟨"acme", "show all users", "SELECT * FROM users LIMIT 1000",
    ⟨FinalStatus.succeeded, 1, 0, 1⟩⟩

/-- C8 witness: a failing audit write yields the same response as a
succeeding one, and the succeeded session's response stays successful. -/
theorem audit_failure_swallowed_witness :
    (finalizeSession auditFailing exSession).1 =
      (finalizeSession auditSucceeding exSession).1 ∧
    ((finalizeSession auditFailing exSession).1).success = true :=
  ⟨(audit_failure_swallowed auditFailing auditSucceeding exSession).1,
   (audit_failure_swallowed auditFailing auditSucceeding exSession).2 rfl⟩

/-- The stacked, keyword-free statement refuting the C4 equivalence. -/
def exStackedNoKeyword : String := "SELECT 1; SELECT 2"

/-- C4 counterexample: the guard's rejections are not exactly the statements
containing a blocked keyword — this statement contains no blocked keyword as a
standalone word, yet the guard rejects it (stacked statements). -/
theorem guard_reject_not_iff_blocked :
    validate 1000 exStackedNoKeyword = GuardResult.rejected reasonMultiple ∧
    hasBlockedKeyword exStackedNoKeyword = false := by
  constructor <;> decide

/-- The identifier-rich statement of the C4 word-boundary conjunct. -/
def exFriendlyColumns : String :=
  "SELECT created_at, delete_reason, update_count FROM t LIMIT 10"

/-- C4 amended: among statements passing the single-statement and read-only
rules, the guard rejects with the blocked-keyword reason exactly the ones
containing a blocked keyword as a standalone word (word-boundary match,
case-insensitive); identifiers such as created_at, delete_reason or
update_count that merely contain a keyword as a substring do not trigger it. -/
theorem blocklist_rule_spec (maxRows : Nat) (s : String)
    (h1 : hasStacked s = false) (h2 : startsWithRead s = true) :
    (validate maxRows s = GuardResult.rejected reasonBlocked ↔
      hasBlockedKeyword s = true) ∧
    hasBlockedKeyword exFriendlyColumns = false ∧
    validate 1000 exFriendlyColumns = GuardResult.accepted exFriendlyColumns := by
  refine ⟨?_, by decide, by decide⟩
  constructor
  · intro hcon
    by_cases hb : hasBlockedKeyword s
    · exact hb
    · exfalso
      revert hcon
      simp [validate, h1, h2, hb]
      split <;> simp
  · intro hb
    simp [validate, h1, h2, hb]

/-- The keyword-bearing statement of the C4 witness. -/
def exHasDrop : String := "SELECT x FROM t WHERE y IN (SELECT z FROM drop)"

/-- C4 witness: a single read statement containing DROP as a standalone word is
rejected with the blocked-keyword reason, and the identifier-only statement is
accepted. -/
theorem blocklist_rule_spec_witness :
    validate 1000 exHasDrop = GuardResult.rejected reasonBlocked ∧
    validate 1000 exFriendlyColumns = GuardResult.accepted exFriendlyColumns :=
  ⟨((blocklist_rule_spec 1000 exHasDrop (by decide) (by decide)).1).2 (by decide),
   ((blocklist_rule_spec 1000 exHasDrop (by decide) (by decide)).2).2⟩

/-- Looking up the key at the head of an association list. -/
theorem lookup_cons_self {a : String} {b : Nat} {l : List (String × Nat)} :
    ((a, b) :: l).lookup a = some b := by
  simp [List.lookup]

/-- Looking up a different key skips the head of an association list. -/
theorem lookup_cons_ne {k a : String} {b : Nat} {l : List (String × Nat)}
    (h : k ≠ a) : ((a, b) :: l).lookup k = l.lookup k := by
  simp [List.lookup, beq_eq_false_iff_ne.mpr h]

/-- A key with no lookup result is not among the registry's keys. -/
theorem lookup_none_not_mem {k : String} {l : List (String × Nat)}
    (h : l.lookup k = none) : k ∉ l.map Prod.fst := by
  induction l with
  | nil => simp
  | cons p rest ih =>
    obtain ⟨a, b⟩ := p
    by_cases hk : k = a
    · subst hk
      rw [lookup_cons_self] at h
      cases h
    · rw [lookup_cons_ne hk] at h
      simp only [List.map, List.mem_cons]
      rintro (rfl | hmem)
      · exact hk rfl
      · exact ih h hmem

/-- Acquire preserves the one-pool-per-key invariant. -/
theorem acquire_distinct (st : PoolRegistry) (k : String)
    (h : distinctKeys st) : distinctKeys (acquire st k).1 := by
  unfold acquire
  cases hl : st.pools.lookup k with
  | some pid => exact h
  | none =>
    simp only [distinctKeys, List.map, List.nodup_cons]
    exact ⟨lookup_none_not_mem hl, h⟩

/-- Idle teardown preserves the one-pool-per-key invariant. -/
theorem evict_distinct (st : PoolRegistry) (k : String)
    (h : distinctKeys st) : distinctKeys (evictPool st k) :=
  List.Nodup.sublist (List.Sublist.map Prod.fst (List.filter_sublist _)) h

/-- Every interleaving of acquire and teardown steps preserves the
one-pool-per-key invariant. -/
theorem runSteps_distinct (steps : List PoolStep) :
    ∀ st : PoolRegistry, distinctKeys st → distinctKeys (runSteps st steps) := by
  induction steps with
  | nil => exact fun st h => h
  | cons stp rest ih =>
    intro st h
    cases stp with
    | acq k => exact ih _ (acquire_distinct st k h)
    | idle k => exact ih _ (evict_distinct st k h)

/-- Once a tenant's pool exists, further Acquire bursts create no pool for that
tenant. -/
theorem creationsFor_of_present (k : String) (ks : List String) :
    ∀ st : PoolRegistry, (st.pools.lookup k).isSome →
      creationsFor k st (ks.map PoolStep.acq) = 0 := by
  induction ks with
  | nil => intro st _; rfl
  | cons j rest ih =>
    intro st h
    simp only [List.map, creationsFor]
    have hnc : ¬ (j = k ∧ st.pools.lookup j = none) := by
      rintro ⟨rfl, hn⟩
      rw [hn] at h
      cases h
    rw [if_neg hnc, Nat.zero_add]
    cases hl : st.pools.lookup j with
    | some q =>
      apply ih
      simp [acquire, hl, h]
    | none =>
      apply ih
      have hjk : j ≠ k := by
        rintro rfl
        rw [hl] at h
        cases h
      simp only [acquire, hl]
      rw [lookup_cons_ne (Ne.symm hjk)]
      exact h

/-- From a state where the tenant's pool does not exist, a burst of Acquire
calls creates exactly one pool for it when the tenant is acquired at all, and
none otherwise. -/
theorem creationsFor_of_absent (k : String) (ks : List String) :
    ∀ st : PoolRegistry, st.pools.lookup k = none →
      creationsFor k st (ks.map PoolStep.acq) = if k ∈ ks then 1 else 0 := by
  induction ks with
  | nil => intro st _; simp [creationsFor]
  | cons j rest ih =>
    intro st h
    by_cases hj : j = k
    · subst hj
      simp only [List.map, creationsFor, h, and_self, if_true, List.mem_cons, true_or]
      have hsome : (((acquire st j).1.pools).lookup j).isSome := by
        simp [acquire, h, List.lookup]
      rw [creationsFor_of_present j rest _ hsome]
    · simp only [List.map, creationsFor]
      have hnc : ¬ (j = k ∧ st.pools.lookup j = none) := by
        rintro ⟨rfl, _⟩
        exact hj rfl
      rw [if_neg hnc, Nat.zero_add]
      have hkj : k ≠ j := Ne.symm hj
      rw [if_congr (Iff.intro
            (fun hin => (List.mem_cons.mp hin).resolve_left hkj)
            (fun hin => List.mem_cons.mpr (Or.inr hin))) rfl rfl]
      cases hl : st.pools.lookup j with
      | some q =>
        rw [show (acquire st j).1 = st by simp [acquire, hl]]
        exact ih st h
      | none =>
        apply ih
        simp only [acquire, hl]
        rw [lookup_cons_ne hkj]
        exact h

/-- C7: over any interleaving of atomic registry steps, at most one live pool
object exists per tenant key at every instant; and for a tenant key with no
existing pool, a burst of Acquire calls (pool creation being serialized per
key, per the spec) creates exactly one pool for that key — one if the key is
acquired at all, zero otherwise. -/
theorem single_pool_per_tenant (st : PoolRegistry) (k : String)
    (steps : List PoolStep) (ks : List String)
    (hd : distinctKeys st) (hk : st.pools.lookup k = none) :
    distinctKeys (runSteps st steps) ∧
    creationsFor k st (ks.map PoolStep.acq) = if k ∈ ks then 1 else 0 :=
  ⟨runSteps_distinct steps st hd, creationsFor_of_absent k ks st hk⟩

/-- The tenant key of the C7 witness. -/
def exAcme : String := "acme@example.com"

/-- The other tenant key of the C7 witness. -/
def exBeta : String := "beta@example.com"

/-- The concurrent Acquire burst of the C7 witness: three calls, two of them
for the unseen tenant. -/
def exBurst : List String := [exAcme, exAcme, exBeta]

/-- C7 witness: from an empty registry, the burst creates exactly one pool for
the repeated tenant and the registry keys stay duplicate-free. -/
theorem single_pool_per_tenant_witness :
    distinctKeys (runSteps ⟨[], 0⟩ (exBurst.map PoolStep.acq)) ∧
    creationsFor exAcme ⟨[], 0⟩ (exBurst.map PoolStep.acq) =
      if exAcme ∈ exBurst then 1 else 0 :=
  single_pool_per_tenant ⟨[], 0⟩ exAcme (exBurst.map PoolStep.acq) exBurst
    (by simp [distinctKeys]) rfl

/-- The tenant email of the C9 counterexample row. -/
def exEmail : String := "carol@example.com"

/-- The INSERT of the C9 counterexample: every NOT NULL column supplied, and an
explicit status text that is neither 'active' nor 'suspended'. -/
def vPending : InsertValues :=
  { user_email := exEmail
  , host := "localhost"
  , db_user := "carol"
  , db_name := "caroldb"
  , db_password := "secret"
  , db_type := none
  , port := none
  , catalog_markdown := none
  , status := some "pending" }

/-- The admin database produced by the C9 counterexample insert. -/
def dbPending : AdminDb := ⟨[newRow ⟨[], 0⟩ vPending], 1⟩

/-- C9 counterexample: the DDL accepts a record whose status is neither
'active' nor 'suspended' — the schema declares no CHECK constraint on the
status column, so the resulting table satisfies every declared constraint
while violating the claimed status domain. -/
theorem tenant_status_not_constrained :
    insertAdmin ⟨[], 0⟩ vPending = some dbPending ∧
    validAdmin dbPending ∧ ¬ statusesWellFormed dbPending := by
  refine ⟨rfl, ?_, ?_⟩
  · unfold validAdmin
    decide
  · unfold statusesWellFormed
    decide

/-- C9 amended: in `db_connection_infos` the tenant key is UNIQUE — an insert
with an existing user_email is refused, and a fresh insert preserves every
declared table constraint — and a record inserted without an explicit status
defaults to 'active'; the schema does not restrict the status column to the
two values 'active'/'suspended'. -/
theorem admin_insert_spec (db : AdminDb) (v : InsertValues)
    (h : validAdmin db) :
    (v.user_email ∈ db.rows.map DbConnectionInfo.user_email →
      insertAdmin db v = none) ∧
    (v.user_email ∉ db.rows.map DbConnectionInfo.user_email →
      insertAdmin db v = some ⟨newRow db v :: db.rows, db.nextId + 1⟩ ∧
      validAdmin ⟨newRow db v :: db.rows, db.nextId + 1⟩) ∧
    (v.status = none → (newRow db v).status = some statusActive) := by
  obtain ⟨hid, hemail, hbound⟩ := h
  refine ⟨?_, ?_, ?_⟩
  · intro hdup
    simp [insertAdmin, hdup]
  · intro hfresh
    refine ⟨by simp [insertAdmin, hfresh], ?_, ?_, ?_⟩
    · simp only [List.map, List.nodup_cons]
      refine ⟨?_, hid⟩
      intro hmem
      obtain ⟨r, hr, hrid⟩ := List.mem_map.mp hmem
      have := hbound r hr
      rw [hrid] at this
      simp [newRow] at this
    · simp only [List.map, List.nodup_cons]
      exact ⟨by simpa [newRow] using hfresh, hemail⟩
    · intro r hr
      rcases List.mem_cons.mp hr with rfl | hmem
      · simp [newRow]
      · exact Nat.lt_succ_of_lt (hbound r hmem)
  · intro hnone
    simp [newRow, hnone, statusActive]

/-- The INSERT of the C9 witness: status column omitted. -/
def vDefaulted : InsertValues :=
  { user_email := exEmail
  , host := "localhost"
  , db_user := "carol"
  , db_name := "caroldb"
  , db_password := "secret"
  , db_type := none
  , port := none
  , catalog_markdown := none
  , status := none }

/-- C9 witness: inserting into the empty table with the status column omitted
succeeds, keeps the table valid, and stores status 'active'. -/
theorem admin_insert_spec_witness :
    insertAdmin ⟨[], 0⟩ vDefaulted =
      some ⟨newRow ⟨[], 0⟩ vDefaulted :: ([] : List DbConnectionInfo), 0 + 1⟩ ∧
    validAdmin ⟨newRow ⟨[], 0⟩ vDefaulted :: ([] : List DbConnectionInfo), 0 + 1⟩ ∧
    (newRow ⟨[], 0⟩ vDefaulted).status = some statusActive := by
  have h := admin_insert_spec ⟨[], 0⟩ vDefaulted (by unfold validAdmin; decide)
  have h2 := h.2.1 (by decide)
  exact ⟨h2.1, h2.2, h.2.2 rfl⟩

end SqlGateway
